import Mathlib

/-!
Verification of the CalHacks analytics metrics core.

Shallow embedding of the metrics fusion and scoring engine of the
repository (the analytics controller in `src/SOLUTION.md`, lines 200-883,
which is the file `lib/analyticsController.ts` of the project).

Conventions of the embedding:
* JavaScript numbers are modelled as exact rationals (`ℚ`); the only
  irrational operation the source performs is `Math.sqrt`, which is
  modelled with `Real.sqrt` (so tone scores and standard deviations
  live in `ℝ`).
* JavaScript `undefined` for an optional value is `Option.none`.
* Mutable controller state is a `ControllerState` record; each handler
  of the source becomes a state-passing function taking the current
  wall-clock time (`Date.now()`) as an explicit argument.
-/

/-- JavaScript `Math.round`: round half toward +∞. -/
def jsRound (x : ℚ) : ℚ := (⌊x + 1/2⌋ : ℤ)

/-- Models `Math.round(x * 100) / 100`, the two-decimal rounding used by
`calculateStats` for `mean` (source line 797). -/
def jsRound2 (x : ℚ) : ℚ := jsRound (x * 100) / 100

/-- Real-valued variant of `jsRound`, for quantities that pass through
`Math.sqrt` (the `stdDev` field, source line 801). -/
noncomputable def jsRoundR (x : ℝ) : ℝ := (⌊x + 1/2⌋ : ℤ)

/-- Models `Math.round(x * 100) / 100` on reals. -/
noncomputable def jsRound2R (x : ℝ) : ℝ := jsRoundR (x * 100) / 100

/-- The constant `TONE_HISTORY_SIZE = 30` — rolling-window sample capacity
(source line 257: "3 seconds at 10Hz"). -/
def TONE_HISTORY_SIZE : ℕ := 30

/-- The constant `CONFIG.WPM_WINDOW_SEC = 30` — the trailing WPM window in seconds.
The file `lib/config.ts` is not among the sources, but `README.md`
(also a repository file) lists `WPM_WINDOW_SEC: 30` in its rendering of
`CONFIG`, matching the spec's default of 30 s. -/
def WPM_WINDOW_SEC : ℚ := 30

/-- Models `array.push(x)` followed by `if (array.length > TONE_HISTORY_SIZE)
array.shift()` — the rolling-window update used for the pitch, RMS and
WPM histories (source lines 541-548) and for the sentiment history
(source lines 406-411). -/
def pushTrim (h : List ℚ) (x : ℚ) : List ℚ :=
  let h2 := h ++ [x]
  if TONE_HISTORY_SIZE < h2.length then h2.tail else h2

/-- The pruning step of `calculateWPM` (source lines 424-429): keep the
word-timeline entries with `w.t >= now - WPM_WINDOW_SEC * 1000`. -/
def pruneTimeline (now : ℚ) (wt : List (String × ℚ)) : List (String × ℚ) :=
  wt.filter fun w => decide (now - WPM_WINDOW_SEC * 1000 ≤ w.2)

/-- The value computed by `calculateWPM` after pruning (source lines
431-434): `0` on an empty timeline, else
`Math.round((count / WPM_WINDOW_SEC) * 60)`. -/
def calculateWPMValue (wt : List (String × ℚ)) : ℚ :=
  if wt = [] then 0 else jsRound ((wt.length : ℚ) / WPM_WINDOW_SEC * 60)

/-- Translation of `calculatePauseRatio` (source lines 440-448).  `CONFIG.RMS_NOISE_FLOOR`
lives in the absent `lib/config.ts`; modelled from the spec: "noiseFloor is
a fixed configuration constant representing expected ambient loudness", so
it is an explicit parameter here.  The function is dead code in the
controller: `publishMetrics` emits `pause_ratio: undefined` (line 556). -/
def calculatePauseRatio (noiseFloor : ℚ) (rmsHistory : List ℚ) : ℚ :=
  if rmsHistory = [] then 0
  else
    let threshold := noiseFloor * 2
    let pauses := (rmsHistory.filter fun rms => decide (rms < threshold)).length
    (pauses : ℚ) / rmsHistory.length

/-- Translation of `calculateFillersPerMin` (source lines 453-459). -/
def calculateFillersPerMin (fillerCount : ℕ) (startTime now : ℚ) : ℚ :=
  let elapsedMin := (now - startTime) / 60000
  if elapsedMin = 0 then 0 else (fillerCount : ℚ) / elapsedMin

/-- Translation of `calculateToneScore` (source lines 465-527).  Returns `none`
(`undefined`) with fewer than 10 pitch or 10 RMS samples, or fewer than
5 voiced (`> 0`) pitch samples; otherwise the clamped weighted
combination of the variance, rate and sentiment sub-scores.  The source
also computes `pitchLevelScore` and `volumeScore` (lines 496, 501) but
never uses them in the returned combination; they are omitted here. -/
noncomputable def calculateToneScore
    (pitchHistory rmsHistory wpmHistory sentimentHistory : List ℚ) :
    Option ℝ :=
  if pitchHistory.length < 10 ∨ rmsHistory.length < 10 then none
  else
    let validPitches := pitchHistory.filter fun p => decide (0 < p)
    if validPitches.length < 5 then none
    else
      let pitchMean : ℚ := validPitches.sum / validPitches.length
      let pitchVariance : ℚ :=
        (validPitches.map fun p => (p - pitchMean) ^ 2).sum / validPitches.length
      let pitchStdDev : ℝ := Real.sqrt (pitchVariance : ℝ)
      let pitchCV : ℝ := if 0 < pitchMean then pitchStdDev / (pitchMean : ℝ) else 0
      let varianceScore : ℝ := (pitchCV - 0.07) / 0.05
      let rateScore : ℝ :=
        if wpmHistory.length ≠ 0 then
          ((wpmHistory.sum / wpmHistory.length : ℚ) - 135) / 35
        else 0
      let sentimentScore : ℝ :=
        if sentimentHistory.length ≠ 0 then
          ((sentimentHistory.sum / sentimentHistory.length : ℚ) : ℝ)
        else 0
      let toneScore : ℝ :=
        varianceScore * 0.25 + rateScore * 0.25 + sentimentScore * 0.5
      some (max (-1) (min 1 (toneScore * 1.5)))

/-- The latest audio feature frame, `Partial<AudioAnalysisMessage>`
(source line 235): every field may still be absent. -/
structure AudioData where
  pitch : Option ℚ
  rms : Option ℚ
deriving Repr, DecidableEq

/-- The latest face feature frame, `Partial<FaceAnalysisMessage>`
(source line 240). -/
structure FaceData where
  yaw : Option ℚ
  pitch : Option ℚ
  blinkPerMin : Option ℚ
  smile : Option ℚ
  gazeJitter : Option ℚ
deriving Repr, DecidableEq

/-- A published `MetricsEvent` (source lines 551-565).  The source names
the last two fields `transcript_partial` / `transcript_final`; here they
are called `transcript_interim` / `transcript_final`. -/
structure MetricsEvent where
  t : ℚ
  wpm : Option ℚ
  pitch_hz : Option ℚ
  rms : Option ℚ
  pause_ratio : Option ℚ
  fillers_per_min : ℚ
  head : Option (ℚ × ℚ)
  gaze_jitter : Option ℚ
  smile : Option ℚ
  blink_per_min : Option ℚ
  tone_score : Option ℝ
  transcript_interim : String
  transcript_final : String

/-- The mutable state of one analytics controller instance (source lines
222-264).  Media/worker resources (`stream`, `faceWorker`, `audioContext`,
`mediaRecorder`, `metricsIntervalId`, …) are modelled by liveness flags;
`asrAvailable` mirrors the external `asrService.available` flag queried by
the controller. -/
structure ControllerState where
  isRunning : Bool
  startTime : ℚ
  endTime : ℚ
  hasStream : Bool
  recorderActive : Bool
  videoAttached : Bool
  audioContextOpen : Bool
  audioNodeConnected : Bool
  faceWorkerAlive : Bool
  faceLoopActive : Bool
  asrAvailable : Bool
  asrActive : Bool
  transcriptFinal : String
  transcriptInterim : String
  wordTimestamps : List (String × ℚ)
  fillerCount : ℕ
  pitchHistory : List ℚ
  rmsHistory : List ℚ
  wpmHistory : List ℚ
  sentimentHistory : List ℚ
  allMetrics : List MetricsEvent
  metricsIntervalActive : Bool

/-- Handler `audioWorkletNode.port.onmessage` (source lines 285-287): overwrite
the latest audio frame.  The frame itself is carried in the state via the
snapshot fields; this handler is only needed to build concrete sessions. -/
structure ControllerSnapshots where
  latestAudioData : AudioData
  latestFaceData : FaceData

/-- Translation of `publishMetrics` (source lines 532-581): one tick.  Takes the buffer
bound `CONFIG.MAX_METRICS_BUFFER` (its value lives in the absent
`lib/config.ts`, so it stays a parameter), the snapshots, the state and
`Date.now()`; returns the updated state and the published event. -/
noncomputable def publishMetrics (maxBuffer : ℕ) (latestAudioData : AudioData)
    (latestFaceData : FaceData) (s : ControllerState) (now : ℚ) :
    ControllerState × MetricsEvent :=
  let t := now - s.startTime
  -- `asrService.available ? calculateWPM() : 0`; `calculateWPM` also
  -- prunes `wordTimestamps` in place.
  let prunedTimeline :=
    if s.asrAvailable then pruneTimeline now s.wordTimestamps else s.wordTimestamps
  let currentWpm : ℚ := if s.asrAvailable then calculateWPMValue prunedTimeline else 0
  -- `latestAudioData.pitch || 0` (0 is falsy, so `none` and `some 0` agree)
  let currentPitch : ℚ := latestAudioData.pitch.getD 0
  let currentRms : ℚ := latestAudioData.rms.getD 0
  let pitchHistory := pushTrim s.pitchHistory currentPitch
  let rmsHistory := pushTrim s.rmsHistory currentRms
  let wpmHistory := pushTrim s.wpmHistory currentWpm
  let event : MetricsEvent :=
    { t := t
      wpm := if s.asrAvailable then some currentWpm else none
      pitch_hz :=
        match latestAudioData.pitch with
        | some p => if 0 < p then some p else none
        | none => none
      rms := latestAudioData.rms
      pause_ratio := none  -- source line 556: "will be calculated from rolling buffer in UI"
      fillers_per_min := calculateFillersPerMin s.fillerCount s.startTime now
      head :=
        match latestFaceData.yaw with
        | some y => some (y, latestFaceData.pitch.getD 0)
        | none => none
      gaze_jitter := latestFaceData.gazeJitter
      smile := latestFaceData.smile
      blink_per_min := latestFaceData.blinkPerMin
      tone_score := calculateToneScore pitchHistory rmsHistory wpmHistory s.sentimentHistory
      transcript_interim := s.transcriptInterim
      transcript_final := s.transcriptFinal }
  let allMetrics :=
    let a := s.allMetrics ++ [event]
    if maxBuffer < a.length then a.tail else a
  ({ s with
      wordTimestamps := prunedTimeline
      pitchHistory := pitchHistory
      rmsHistory := rmsHistory
      wpmHistory := wpmHistory
      allMetrics := allMetrics },
   event)

/-- The `onFinal` ASR callback (source lines 385-413).  `FILLER_REGEX`
lives in the absent `lib/config.ts` and the sentiment analyzer is the
external `sentiment` package; modelled from the spec: "a fixed lexical
pattern" match count and "a lexical-sentiment score" become the function
parameters `countFillers` and `rawSentiment`. -/
def onFinal (countFillers : String → ℕ) (rawSentiment : String → ℤ)
    (splitWords : String → List String) (trimmed : String → String)
    (s : ControllerState) (text : String) (now : ℚ) : ControllerState :=
  { s with
    transcriptFinal :=
      if s.transcriptFinal = "" then text else s.transcriptFinal ++ " " ++ text
    transcriptInterim := ""
    wordTimestamps := s.wordTimestamps ++ (splitWords text).map fun w => (w, now)
    fillerCount := s.fillerCount + countFillers text
    sentimentHistory :=
      if (trimmed text).length ≠ 0 then
        pushTrim s.sentimentHistory (max (-1) (min 1 ((rawSentiment text : ℚ) / 3)))
      else s.sentimentHistory }

/-- The `onInterim` ASR callback (source lines 382-384). -/
def onInterim (s : ControllerState) (text : String) : ControllerState :=
  { s with transcriptInterim := text }

/-- Translation of `start` (source lines 613-708), happy path: the guard and state reset
are taken from the source; acquisition of media, worker and recorder
(external collaborators) is assumed to succeed and is reflected by the
liveness flags.  Returns the error message of a thrown exception (if any)
together with the caller-visible state. -/
def start (useASR : Bool) (s : ControllerState) (now : ℚ) :
    Option String × ControllerState :=
  if s.isRunning then (some "Already running", s)
  else
    -- Reset state (source lines 628-642)
    let s1 : ControllerState :=
      { s with
        transcriptFinal := ""
        transcriptInterim := ""
        wordTimestamps := []
        fillerCount := 0
        allMetrics := []
        pitchHistory := []
        rmsHistory := []
        wpmHistory := []
        sentimentHistory := [] }
    -- Media, pipelines, recorder, ticker (source lines 644-695)
    (none,
     { s1 with
        hasStream := true
        videoAttached := true
        audioContextOpen := true
        audioNodeConnected := true
        faceWorkerAlive := true
        faceLoopActive := true
        asrActive := useASR && s.asrAvailable
        recorderActive := true
        metricsIntervalActive := true
        isRunning := true
        startTime := now })

/-- Translation of `stop` (source lines 710-767): early return when neither running nor
holding a stream, otherwise halt the ticker and tear everything down.
The source never throws here, so the model is a total function. -/
def stop (s : ControllerState) (now : ℚ) : ControllerState :=
  if s.isRunning = false ∧ s.hasStream = false then s
  else
    { s with
      isRunning := false
      endTime := now
      metricsIntervalActive := false
      asrActive := false
      faceLoopActive := false
      faceWorkerAlive := false
      audioNodeConnected := false
      audioContextOpen := false
      recorderActive := false
      hasStream := false
      videoAttached := false }

/-- Run the Publish Ticker over a list of tick instants.  `setInterval`
only fires while the interval is scheduled, so a tick instant produces an
event only when `metricsIntervalActive` holds; the events are returned in
order of publication. -/
noncomputable def runTicks (maxBuffer : ℕ) (audio : AudioData) (face : FaceData)
    (s : ControllerState) (ts : List ℚ) : ControllerState × List MetricsEvent :=
  match ts with
  | [] => (s, [])
  | t :: rest =>
    if s.metricsIntervalActive then
      let se := publishMetrics maxBuffer audio face s t
      let rec2 := runTicks maxBuffer audio face se.1 rest
      (rec2.1, se.2 :: rec2.2)
    else runTicks maxBuffer audio face s rest

/-- The per-metric descriptive statistics record produced by
`calculateStats` (source lines 790-803), for the rational-valued
metrics.  `stdDev` passes through `Math.sqrt`, hence lives in `ℝ`. -/
structure Stats where
  mean : ℚ
  median : ℚ
  min : ℚ
  max : ℚ
  stdDev : ℝ

/-- Translation of `calculateStats` (source lines 790-803): `null` on an empty value
list, else mean (rounded to 2 decimals), median (`sorted[⌊n/2⌋]`), min,
max and population standard deviation (rounded to 2 decimals).
`[...values].sort((a,b) => a-b)` is ascending numeric sort. -/
noncomputable def calculateStats (values : List ℚ) : Option Stats :=
  if values = [] then none
  else
    let sorted := values.insertionSort (· ≤ ·)
    let mean : ℚ := values.sum / (values.length : ℚ)
    let variance : ℚ := (values.map fun v => (v - mean) ^ 2).sum / (values.length : ℚ)
    some
      { mean := jsRound2 mean
        median := sorted.getD (values.length / 2) 0
        min := sorted.getD 0 0
        max := sorted.getD (sorted.length - 1) 0
        stdDev := jsRound2R (Real.sqrt (variance : ℝ)) }

/-- Real-valued counterpart of `Stats`, for the tone-score metric (whose
per-tick samples are already real-valued). -/
structure StatsR where
  mean : ℝ
  median : ℝ
  min : ℝ
  max : ℝ
  stdDev : ℝ

/-- Translation of `calculateStats` applied to the real-valued tone samples
(source line 832). -/
noncomputable def calculateStatsR (values : List ℝ) : Option StatsR :=
  if values = [] then none
  else
    let sorted := values.insertionSort (· ≤ ·)
    let mean : ℝ := values.sum / (values.length : ℝ)
    let variance : ℝ := (values.map fun v => (v - mean) ^ 2).sum / (values.length : ℝ)
    some
      { mean := jsRound2R mean
        median := sorted.getD (values.length / 2) 0
        min := sorted.getD 0 0
        max := sorted.getD (sorted.length - 1) 0
        stdDev := jsRound2R (Real.sqrt variance) }

/-- The object returned by `getMetricsSummary` (source lines 814-837),
flattened: `session.*`, `speech.*`, `face.*`, `tone` and `transcript.*`.
The ISO date strings `startedAt`/`endedAt` are modelled by the underlying
epoch times. -/
structure Summary where
  startedAt : ℚ
  endedAt : ℚ
  durationSeconds : ℚ
  totalDataPoints : ℕ
  speech_wpm : Option Stats
  speech_pitch_hz : Option Stats
  speech_pause_ratio_pct : Option Stats
  speech_fillers_per_min : Option Stats
  total_filler_count : ℕ
  face_blink_per_min : Option Stats
  face_gaze_stability : Option Stats
  tone : Option StatsR
  transcript_full_text : String
  transcript_word_count : ℕ

/-- Translation of `getMetricsSummary` (source lines 786-838).  `endTime || Date.now()`:
`endTime` is falsy exactly when it is `0`. -/
noncomputable def getMetricsSummary (s : ControllerState) (now : ℚ) : Summary :=
  let endT := if s.endTime = 0 then now else s.endTime
  let duration := (endT - s.startTime) / 1000
  let wpmValues := s.allMetrics.filterMap MetricsEvent.wpm
  let pitchValues := s.allMetrics.filterMap MetricsEvent.pitch_hz
  let pauseValues := s.allMetrics.filterMap MetricsEvent.pause_ratio
  let fillersValues := s.allMetrics.map MetricsEvent.fillers_per_min
  let blinkValues := s.allMetrics.filterMap MetricsEvent.blink_per_min
  let gazeValues := s.allMetrics.filterMap MetricsEvent.gaze_jitter
  let toneValues := s.allMetrics.filterMap MetricsEvent.tone_score
  { startedAt := s.startTime
    endedAt := endT
    durationSeconds := jsRound duration
    totalDataPoints := s.allMetrics.length
    speech_wpm := calculateStats wpmValues
    speech_pitch_hz := calculateStats pitchValues
    speech_pause_ratio_pct := calculateStats (pauseValues.map fun v => v * 100)
    speech_fillers_per_min := calculateStats fillersValues
    total_filler_count := s.fillerCount
    face_blink_per_min := calculateStats blinkValues
    face_gaze_stability := calculateStats gazeValues
    tone := calculateStatsR toneValues
    transcript_full_text := s.transcriptFinal
    transcript_word_count :=
      ((s.transcriptFinal.split fun c => c.isWhitespace).filter
        fun w => w.length ≠ 0).length }

/-- The complete enumeration of the `Option Stats` entries a `Summary`
carries, paired with the key each one has in the object returned by
`getMetricsSummary` (source lines 814-837). -/
def Summary.statsEntries (y : Summary) : List (String × Option Stats) :=
  [("wpm", y.speech_wpm), ("pitch_hz", y.speech_pitch_hz),
   ("pause_ratio_pct", y.speech_pause_ratio_pct),
   ("fillers_per_min", y.speech_fillers_per_min),
   ("blink_per_min", y.face_blink_per_min),
   ("gaze_stability", y.face_gaze_stability)]

/-- The keys of all per-metric statistics entries of a `Summary`: the six
rational-valued ones plus the real-valued `tone` entry.  The `Summary`
structure has no further stats field — in particular none for loudness
(`rms`). -/
def Summary.statsKeys (y : Summary) : List String :=
  y.statsEntries.map Prod.fst ++ ["tone"]

/-- The controller's closure state at construction (source lines 222-264):
nothing running, empty buffers; `asrAvailable` mirrors the environment's
`asrService.available` flag, here instantiated to `true`. -/
def initialState : ControllerState :=
  { isRunning := false
    startTime := 0
    endTime := 0
    hasStream := false
    recorderActive := false
    videoAttached := false
    audioContextOpen := false
    audioNodeConnected := false
    faceWorkerAlive := false
    faceLoopActive := false
    asrAvailable := true
    asrActive := false
    transcriptFinal := ""
    transcriptInterim := ""
    wordTimestamps := []
    fillerCount := 0
    pitchHistory := []
    rmsHistory := []
    wpmHistory := []
    sentimentHistory := []
    allMetrics := []
    metricsIntervalActive := false }

/-- No audio frame received yet (`latestAudioData = {}`). -/
def noAudio : AudioData := ⟨none, none⟩

/-- No face frame received yet (`latestFaceData = {}`). -/
def noFace : FaceData := ⟨none, none, none, none, none⟩

/-! ### Helper lemmas about the rolling-window update and the ticker -/

theorem pushTrim_length_le {h : List ℚ} {x : ℚ} (hh : h.length ≤ 30) :
    (pushTrim h x).length ≤ 30 := by
  simp only [pushTrim, TONE_HISTORY_SIZE]
  split
  · simp only [List.length_tail, List.length_append, List.length_singleton]
    omega
  · rename_i hle
    simp only [not_lt, List.length_append, List.length_singleton] at hle
    simpa using hle

theorem foldl_pushTrim_length_le (xs : List ℚ) :
    ∀ h : List ℚ, h.length ≤ 30 → (xs.foldl pushTrim h).length ≤ 30 := by
  induction xs with
  | nil => intro h hh; simpa using hh
  | cons y ys ih => intro h hh; exact ih (pushTrim h y) (pushTrim_length_le hh)

theorem pushTrim_evict {h : List ℚ} {x : ℚ} (hh : h.length = 30) :
    pushTrim h x = h.tail ++ [x] := by
  simp only [pushTrim, TONE_HISTORY_SIZE]
  rw [if_pos (by simp [hh])]
  cases h with
  | nil => simp at hh
  | cons a t => simp

/-- The four rolling windows of the controller all hold at most
`TONE_HISTORY_SIZE = 30` samples. -/
def windowsBounded (s : ControllerState) : Prop :=
  s.pitchHistory.length ≤ 30 ∧ s.rmsHistory.length ≤ 30 ∧
  s.wpmHistory.length ≤ 30 ∧ s.sentimentHistory.length ≤ 30

theorem publishMetrics_fst_windows (mb : ℕ) (a : AudioData) (f : FaceData)
    (s : ControllerState) (now : ℚ) :
    (publishMetrics mb a f s now).1.pitchHistory
        = pushTrim s.pitchHistory (a.pitch.getD 0) ∧
    (publishMetrics mb a f s now).1.rmsHistory
        = pushTrim s.rmsHistory (a.rms.getD 0) ∧
    (∃ w, (publishMetrics mb a f s now).1.wpmHistory
        = pushTrim s.wpmHistory w) ∧
    (publishMetrics mb a f s now).1.sentimentHistory = s.sentimentHistory :=
  ⟨rfl, rfl, ⟨_, rfl⟩, rfl⟩

theorem windowsBounded_publishMetrics {mb : ℕ} {a : AudioData} {f : FaceData}
    {s : ControllerState} {now : ℚ} (hb : windowsBounded s) :
    windowsBounded (publishMetrics mb a f s now).1 := by
  obtain ⟨h1, h2, h3, h4⟩ := hb
  obtain ⟨e1, e2, ⟨w, e3⟩, e4⟩ := publishMetrics_fst_windows mb a f s now
  exact ⟨e1 ▸ pushTrim_length_le h1, e2 ▸ pushTrim_length_le h2,
         e3 ▸ pushTrim_length_le h3, e4 ▸ h4⟩

theorem windowsBounded_onFinal {cf : String → ℕ} {rs : String → ℤ}
    {sw : String → List String} {tr : String → String}
    {s : ControllerState} {text : String} {now : ℚ} (hb : windowsBounded s) :
    windowsBounded (onFinal cf rs sw tr s text now) := by
  obtain ⟨h1, h2, h3, h4⟩ := hb
  refine ⟨h1, h2, h3, ?_⟩
  show (if (tr text).length ≠ 0 then _ else _ : List ℚ).length ≤ 30
  split
  · exact pushTrim_length_le h4
  · exact h4

theorem publishMetrics_event_t (mb : ℕ) (a : AudioData) (f : FaceData)
    (s : ControllerState) (now : ℚ) :
    ((publishMetrics mb a f s now).2).t = now - s.startTime := rfl

theorem publishMetrics_fst_startTime (mb : ℕ) (a : AudioData) (f : FaceData)
    (s : ControllerState) (now : ℚ) :
    ((publishMetrics mb a f s now).1).startTime = s.startTime := rfl

theorem publishMetrics_fst_interval (mb : ℕ) (a : AudioData) (f : FaceData)
    (s : ControllerState) (now : ℚ) :
    ((publishMetrics mb a f s now).1).metricsIntervalActive
      = s.metricsIntervalActive := rfl

theorem runTicks_of_inactive (mb : ℕ) (a : AudioData) (f : FaceData) :
    ∀ (ts : List ℚ) (s : ControllerState), s.metricsIntervalActive = false →
      runTicks mb a f s ts = (s, []) := by
  intro ts
  induction ts with
  | nil => intro s _; rfl
  | cons t rest ih =>
    intro s hs
    rw [runTicks, if_neg (by simp [hs])]
    exact ih s hs

theorem runTicks_map_t (mb : ℕ) (a : AudioData) (f : FaceData) :
    ∀ (ts : List ℚ) (s : ControllerState), s.metricsIntervalActive = true →
      ((runTicks mb a f s ts).2.map MetricsEvent.t)
        = ts.map (fun u => u - s.startTime) := by
  intro ts
  induction ts with
  | nil => intro s _; rfl
  | cons t rest ih =>
    intro s hs
    rw [runTicks, if_pos (by simp [hs])]
    simp only [List.map_cons]
    rw [publishMetrics_event_t,
        ih _ (by rw [publishMetrics_fst_interval]; exact hs),
        publishMetrics_fst_startTime]

/-! ### Claim theorems -/

/-- C7 — For every rolling window (pitch, loudness, pace, sentiment)
and after any number of pushes, the window's length never exceeds the
capacity of `TONE_HISTORY_SIZE = 30` samples; when a push would exceed
the capacity, the oldest sample (the list head) is evicted.  Stated for
the update primitive `pushTrim` (push-then-shift), for an arbitrary
sequence of pushes from the empty window, and for the two state
transitions that push into windows (`publishMetrics`, `onFinal`). -/
theorem C7_rolling_window_capacity
    (h : List ℚ) (x : ℚ) (xs : List ℚ)
    (mb : ℕ) (a : AudioData) (f : FaceData) (s : ControllerState) (now : ℚ)
    (cf : String → ℕ) (rs : String → ℤ) (sw : String → List String)
    (tr : String → String) (text : String) (now2 : ℚ) :
    (h.length ≤ 30 → (pushTrim h x).length ≤ 30) ∧
    (xs.foldl pushTrim []).length ≤ 30 ∧
    (h.length = 30 → pushTrim h x = h.tail ++ [x]) ∧
    (windowsBounded s → windowsBounded (publishMetrics mb a f s now).1) ∧
    (windowsBounded s → windowsBounded (onFinal cf rs sw tr s text now2)) :=
  ⟨fun hh => pushTrim_length_le hh,
   foldl_pushTrim_length_le xs [] (by simp),
   fun hh => pushTrim_evict hh,
   fun hb => windowsBounded_publishMetrics hb,
   fun hb => windowsBounded_onFinal hb⟩

/-- Witness for C7 at concrete inputs: a full 30-sample window stays at
30 samples and evicts its head, and a freshly constructed controller's
windows stay bounded across a tick. -/
theorem C7_witness :
    (pushTrim (List.replicate 30 (0 : ℚ)) 1).length ≤ 30 ∧
    pushTrim (List.replicate 30 (0 : ℚ)) 1
      = (List.replicate 30 (0 : ℚ)).tail ++ [1] ∧
    windowsBounded (publishMetrics 1800 noAudio noFace initialState 100).1 :=
  ⟨(C7_rolling_window_capacity (List.replicate 30 (0 : ℚ)) 1 []
      1800 noAudio noFace initialState 100
      (fun _ => 0) (fun _ => 0) (fun _ => []) (fun t => t) "" 0).1 (by simp),
   (C7_rolling_window_capacity (List.replicate 30 (0 : ℚ)) 1 []
      1800 noAudio noFace initialState 100
      (fun _ => 0) (fun _ => 0) (fun _ => []) (fun t => t) "" 0).2.2.1 (by simp),
   (C7_rolling_window_capacity (List.replicate 30 (0 : ℚ)) 1 []
      1800 noAudio noFace initialState 100
      (fun _ => 0) (fun _ => 0) (fun _ => []) (fun t => t) "" 0).2.2.2.1
     (by refine ⟨?_, ?_, ?_, ?_⟩ <;> simp [initialState])⟩

/-- C8 — Stopping is idempotent: a second `stop` call finds
`isRunning` false and the stream released, takes the early-return path
and mutates nothing; after the first `stop` of a running session the
publish interval is cancelled, so no later tick instant produces a
published event.  (`stop` is a total function of the model: the source
`stop` throws nowhere.) -/
theorem C8_stop_idempotent (s : ControllerState) (t1 t2 : ℚ) (mb : ℕ)
    (a : AudioData) (f : FaceData) (ts : List ℚ) :
    stop (stop s t1) t2 = stop s t1 ∧
    (s.isRunning = true →
      (stop s t1).metricsIntervalActive = false ∧
      (runTicks mb a f (stop s t1) ts).2 = []) := by
  constructor
  · by_cases hg : s.isRunning = false ∧ s.hasStream = false
    · have h1 : stop s t1 = s := by rw [stop, if_pos hg]
      rw [h1, stop, if_pos hg]
    · have h1 : stop s t1 = { s with
          isRunning := false, endTime := t1, metricsIntervalActive := false,
          asrActive := false, faceLoopActive := false, faceWorkerAlive := false,
          audioNodeConnected := false, audioContextOpen := false,
          recorderActive := false, hasStream := false, videoAttached := false } := by
        rw [stop, if_neg hg]
      rw [h1, stop, if_pos ⟨rfl, rfl⟩]
  · intro hrun
    have hval : stop s t1 = { s with
        isRunning := false, endTime := t1, metricsIntervalActive := false,
        asrActive := false, faceLoopActive := false, faceWorkerAlive := false,
        audioNodeConnected := false, audioContextOpen := false,
        recorderActive := false, hasStream := false, videoAttached := false } := by
      rw [stop, if_neg (by simp [hrun])]
    refine ⟨by rw [hval], ?_⟩
    rw [(runTicks_of_inactive mb a f ts (stop s t1) (by rw [hval]))]

/-- Witness for C8: stopping a freshly started session twice, with
further tick instants scheduled after the stop, publishes nothing more
and leaves the state of the first stop untouched. -/
theorem C8_witness :
    stop (stop (start true initialState 0).2 500) 600
        = stop (start true initialState 0).2 500 ∧
    (stop (start true initialState 0).2 500).metricsIntervalActive = false ∧
    (runTicks 1800 noAudio noFace
        (stop (start true initialState 0).2 500) [700, 800]).2 = [] :=
  ⟨(C8_stop_idempotent (start true initialState 0).2 500 600
      1800 noAudio noFace [700, 800]).1,
   ((C8_stop_idempotent (start true initialState 0).2 500 600
      1800 noAudio noFace [700, 800]).2 rfl).1,
   ((C8_stop_idempotent (start true initialState 0).2 500 600
      1800 noAudio noFace [700, 800]).2 rfl).2⟩

/-- C9 — While the ticker is scheduled, every published event carries
`t = now − startTime`; for tick instants that occur at or after the
session start and advance strictly (which `setInterval` on a monotone
clock guarantees), every published `t` is non-negative and the sequence
of published `t` values is strictly increasing. -/
theorem C9_tMs_monotone (mb : ℕ) (a : AudioData) (f : FaceData)
    (s : ControllerState) (ts : List ℚ)
    (hrun : s.metricsIntervalActive = true)
    (hchain : ts.Chain' (· < ·))
    (hge : ∀ u ∈ ts, s.startTime ≤ u) :
    ((runTicks mb a f s ts).2.map MetricsEvent.t)
        = ts.map (fun u => u - s.startTime) ∧
    (∀ e ∈ (runTicks mb a f s ts).2, 0 ≤ e.t) ∧
    ((runTicks mb a f s ts).2.map MetricsEvent.t).Chain' (· < ·) := by
  have hmap := runTicks_map_t mb a f ts s hrun
  refine ⟨hmap, ?_, ?_⟩
  · intro e he
    have : e.t ∈ (runTicks mb a f s ts).2.map MetricsEvent.t :=
      List.mem_map_of_mem MetricsEvent.t he
    rw [hmap] at this
    obtain ⟨u, hu, hequ⟩ := List.mem_map.mp this
    rw [← hequ]
    exact sub_nonneg.mpr (hge u hu)
  · rw [hmap]
    rw [List.chain'_map]
    exact List.Chain'.imp (fun a b hab => sub_lt_sub_right hab s.startTime) hchain

/-- Witness for C9: three ticks of a freshly started session publish a
strictly increasing `t` sequence. -/
theorem C9_witness :
    ((runTicks 1800 noAudio noFace (start true initialState 0).2
        [100, 250, 400]).2.map MetricsEvent.t).Chain' (· < ·) :=
  (C9_tMs_monotone 1800 noAudio noFace (start true initialState 0).2
      [100, 250, 400] rfl (by norm_num [List.chain'_cons]) (by decide)).2.2

/-- C10 — `start` on a running controller throws `"Already running"`
at its very first statement (source lines 614-616), before the state
reset at lines 628-642, so the caller-visible state after the failed call
is exactly the state before it. -/
theorem C10_start_already_running (useASR : Bool) (s : ControllerState)
    (now : ℚ) (h : s.isRunning = true) :
    start useASR s now = (some "Already running", s) := by
  rw [start, if_pos h]

/-- Witness for C10: starting an already-running controller fails and
changes nothing. -/
theorem C10_witness :
    start true { initialState with isRunning := true } 5
      = (some "Already running", { initialState with isRunning := true }) :=
  C10_start_already_running true { initialState with isRunning := true } 5 rfl

/-- C6 — Every published event's `fillers_per_min` equals
`fillerCount / elapsedMinutes`, with `0` substituted when
`elapsedMinutes = 0`; it is `0` whenever the filler counter is still `0`
(no text yet); it does not depend on ASR availability (the field is not
optional in the event, so it is never `undefined`); and the filler
counter only ever grows, by the number of pattern matches of each final
transcript chunk. -/
theorem C6_fillers_per_min (mb : ℕ) (a : AudioData) (f : FaceData)
    (s : ControllerState) (now : ℚ) (b : Bool)
    (cf : String → ℕ) (rs : String → ℤ) (sw : String → List String)
    (tr : String → String) (text : String) (now2 : ℚ) :
    ((publishMetrics mb a f s now).2).fillers_per_min
        = (if (now - s.startTime) / 60000 = 0 then 0
           else (s.fillerCount : ℚ) / ((now - s.startTime) / 60000)) ∧
    (s.fillerCount = 0 → ((publishMetrics mb a f s now).2).fillers_per_min = 0) ∧
    ((publishMetrics mb a f { s with asrAvailable := b } now).2).fillers_per_min
        = ((publishMetrics mb a f s now).2).fillers_per_min ∧
    s.fillerCount ≤ (onFinal cf rs sw tr s text now2).fillerCount := by
  refine ⟨rfl, ?_, rfl, Nat.le_add_right _ _⟩
  intro h0
  show calculateFillersPerMin s.fillerCount s.startTime now = 0
  simp [calculateFillersPerMin, h0]

/-- Witness for C6: the first tick of a fresh session (no transcript yet)
publishes `fillers_per_min = 0`. -/
theorem C6_witness :
    ((publishMetrics 1800 noAudio noFace (start true initialState 0).2
        100).2).fillers_per_min = 0 :=
  (C6_fillers_per_min 1800 noAudio noFace (start true initialState 0).2 100
      true (fun _ => 0) (fun _ => 0) (fun _ => []) (fun u => u) "" 0).2.1 rfl

theorem calculateWPMValue_eq (wt : List (String × ℚ)) :
    calculateWPMValue wt = jsRound ((wt.length : ℚ) / WPM_WINDOW_SEC * 60) := by
  unfold calculateWPMValue
  split
  · rename_i h
    rw [h]
    show (0 : ℚ) = jsRound ((([] : List (String × ℚ)).length : ℚ) / WPM_WINDOW_SEC * 60)
    norm_num [jsRound, WPM_WINDOW_SEC]
  · rfl

/-- C4 — While ASR is available the published `wpm` equals
`Math.round(count / windowSeconds * 60)` over the pruned trailing
30-second timeline, in particular `0` (not `undefined`) when the pruned
timeline is empty; when ASR is unavailable the field is `undefined`; and
on the timeline `[("a",0),("b",1000),("c",2000)]` read at `t = 3000`
the value is `6`. -/
theorem C4_wpm (mb : ℕ) (a : AudioData) (f : FaceData)
    (s : ControllerState) (now : ℚ) :
    (s.asrAvailable = true →
      ((publishMetrics mb a f s now).2).wpm
        = some (jsRound (((pruneTimeline now s.wordTimestamps).length : ℚ)
            / WPM_WINDOW_SEC * 60))) ∧
    (s.asrAvailable = true → pruneTimeline now s.wordTimestamps = [] →
      ((publishMetrics mb a f s now).2).wpm = some 0) ∧
    (s.asrAvailable = false → ((publishMetrics mb a f s now).2).wpm = none) ∧
    calculateWPMValue (pruneTimeline 3000 [("a", 0), ("b", 1000), ("c", 2000)])
      = 6 := by
  have h1 : s.asrAvailable = true →
      ((publishMetrics mb a f s now).2).wpm
        = some (calculateWPMValue (pruneTimeline now s.wordTimestamps)) := by
    intro hA
    simp [publishMetrics, hA]
  refine ⟨?_, ?_, ?_, ?_⟩
  · intro hA
    rw [h1 hA, calculateWPMValue_eq]
  · intro hA hempty
    rw [h1 hA, hempty]
    rfl
  · intro hA
    simp [publishMetrics, hA]
  · have hp : pruneTimeline 3000 [("a", 0), ("b", 1000), ("c", 2000)]
        = [("a", 0), ("b", 1000), ("c", 2000)] := by
      norm_num [pruneTimeline, List.filter, WPM_WINDOW_SEC]
    rw [hp, calculateWPMValue_eq]
    norm_num [jsRound, WPM_WINDOW_SEC]

/-- Witness for C4: a session with the three-word timeline read at
`t = 3000` publishes `wpm = 6`. -/
theorem C4_witness :
    ((publishMetrics 1800 noAudio noFace
        { (start true initialState 0).2 with
            wordTimestamps := [("a", 0), ("b", 1000), ("c", 2000)] }
        3000).2).wpm = some 6 := by
  have h := (C4_wpm 1800 noAudio noFace
      { (start true initialState 0).2 with
          wordTimestamps := [("a", 0), ("b", 1000), ("c", 2000)] } 3000).1 rfl
  rw [h]
  norm_num [pruneTimeline, WPM_WINDOW_SEC, jsRound, List.filter]

/-- C2 (amended) — `calculatePauseRatio` satisfies the claimed
contract: `0` on the empty window, otherwise
`count(sample < 2 × noiseFloor) / windowLength`, always in `[0,1]`,
`1` on an all-silent window and `0` on an all-loud window.  However the
published `MetricsEvent` does **not** carry it: `publishMetrics` sets
`pause_ratio` to `undefined` on every tick (source line 556), leaving the
computation to a downstream consumer. -/
theorem C2_pause_ratio (nf : ℚ) (w : List ℚ) (mb : ℕ) (a : AudioData)
    (f : FaceData) (s : ControllerState) (now : ℚ) :
    calculatePauseRatio nf [] = 0 ∧
    (0 ≤ calculatePauseRatio nf w ∧ calculatePauseRatio nf w ≤ 1) ∧
    (w ≠ [] → (∀ x ∈ w, x < nf * 2) → calculatePauseRatio nf w = 1) ∧
    ((∀ x ∈ w, ¬ x < nf * 2) → calculatePauseRatio nf w = 0) ∧
    ((publishMetrics mb a f s now).2).pause_ratio = none := by
  refine ⟨rfl, ?_, ?_, ?_, rfl⟩
  · by_cases hw : w = []
    · subst hw
      refine ⟨?_, ?_⟩ <;> norm_num [calculatePauseRatio]
    · have hlen : 0 < (w.length : ℚ) := by
        exact_mod_cast List.length_pos.mpr hw
      constructor
      · show (0 : ℚ) ≤ calculatePauseRatio nf w
        rw [calculatePauseRatio, if_neg hw]
        positivity
      · rw [calculatePauseRatio, if_neg hw]
        show ((w.filter fun rms => decide (rms < nf * 2)).length : ℚ)
            / (w.length : ℚ) ≤ 1
        rw [div_le_one hlen]
        exact_mod_cast List.length_filter_le _ w
  · intro hw hall
    rw [calculatePauseRatio, if_neg hw]
    show ((w.filter fun rms => decide (rms < nf * 2)).length : ℚ)
        / (w.length : ℚ) = 1
    rw [List.filter_eq_self.mpr fun x hx => decide_eq_true (hall x hx)]
    have hlen : (0 : ℚ) < (w.length : ℚ) := by
      exact_mod_cast List.length_pos.mpr hw
    exact div_self (ne_of_gt hlen)
  · intro hall
    by_cases hw : w = []
    · subst hw; rfl
    · rw [calculatePauseRatio, if_neg hw]
      show ((w.filter fun rms => decide (rms < nf * 2)).length : ℚ)
          / (w.length : ℚ) = 0
      have : w.filter (fun rms => decide (rms < nf * 2)) = [] := by
        rw [List.filter_eq_nil_iff]
        intro x hx
        simpa using hall x hx
      rw [this]
      simp

/-- Counterexample to C2 as stated: on the first tick of a fresh session
whose latest audio frame carries loudness `1/2`, the emitted event's
pause-ratio field is `undefined`, not the ratio computed from the rolling
loudness window (here shown against noise floor `1`). -/
theorem C2_counterexample :
    ((publishMetrics 1800 ⟨none, some (1/2)⟩ noFace (start true initialState 0).2
        100).2).pause_ratio
      ≠ some (calculatePauseRatio 1
          (((publishMetrics 1800 ⟨none, some (1/2)⟩ noFace
              (start true initialState 0).2 100).1).rmsHistory)) := by
  show (none : Option ℚ) ≠ some _
  simp

/-- Witness for C2 at concrete inputs: all-silent and all-loud windows. -/
theorem C2_witness :
    calculatePauseRatio (1/10) [(1/100 : ℚ), 1/50, 0] = 1 ∧
    calculatePauseRatio (1/10) [(1/2 : ℚ), 1/5] = 0 ∧
    ((publishMetrics 1800 noAudio noFace initialState 7).2).pause_ratio
      = none :=
  ⟨(C2_pause_ratio (1/10) [(1/100 : ℚ), 1/50, 0] 1800 noAudio noFace
      initialState 7).2.2.1 (by simp)
     (by norm_num [List.forall_mem_cons]),
   (C2_pause_ratio (1/10) [(1/2 : ℚ), 1/5] 1800 noAudio noFace
      initialState 7).2.2.2.1 (by norm_num [List.forall_mem_cons]),
   (C2_pause_ratio (1/10) [(1/2 : ℚ), 1/5] 1800 noAudio noFace
      initialState 7).2.2.2.2⟩

/-- C3 (amended) — For every metric with a non-empty sample set the
summary's median is the sorted middle element without interpolation, but
at index `⌊n/2⌋` — the *upper* middle for even-length sets, not the
lower one claimed; it is in particular always one of the samples.
Stated for the rational-valued stats and for the real-valued tone
stats. -/
theorem C3_median (values : List ℚ) (rvalues : List ℝ) :
    (values ≠ [] → ∃ st, calculateStats values = some st ∧
       st.median = (values.insertionSort (· ≤ ·)).getD (values.length / 2) 0 ∧
       st.median ∈ values) ∧
    (rvalues ≠ [] → ∃ st, calculateStatsR rvalues = some st ∧
       st.median = (rvalues.insertionSort (· ≤ ·)).getD (rvalues.length / 2) 0 ∧
       st.median ∈ rvalues) := by
  constructor
  · intro hne
    refine ⟨_, by rw [calculateStats, if_neg hne], rfl, ?_⟩
    show (values.insertionSort (· ≤ ·)).getD (values.length / 2) 0 ∈ values
    have hlt : values.length / 2 < (values.insertionSort (· ≤ ·)).length := by
      rw [List.length_insertionSort]
      exact Nat.div_lt_self (List.length_pos.mpr hne) one_lt_two
    rw [List.getD_eq_getElem _ _ hlt]
    exact (List.mem_insertionSort _).mp (List.getElem_mem hlt)
  · intro hne
    refine ⟨_, by rw [calculateStatsR, if_neg hne], rfl, ?_⟩
    show (rvalues.insertionSort (· ≤ ·)).getD (rvalues.length / 2) 0 ∈ rvalues
    have hlt : rvalues.length / 2 < (rvalues.insertionSort (· ≤ ·)).length := by
      rw [List.length_insertionSort]
      exact Nat.div_lt_self (List.length_pos.mpr hne) one_lt_two
    rw [List.getD_eq_getElem _ _ hlt]
    exact (List.mem_insertionSort _).mp (List.getElem_mem hlt)

/-- Counterexample to C3 as stated: for the even-length sample set
`[1, 2]` the code reports median `2` — the element at the upper-middle
index `⌊2/2⌋ = 1` of the sorted list — whereas the lower-middle element
is `1`. -/
theorem C3_counterexample :
    (calculateStats [1, 2]).map Stats.median = some 2 ∧
    (List.insertionSort (· ≤ ·) [(1 : ℚ), 2]).getD 0 0 = 1 ∧
    (2 : ℚ) ≠ 1 := by
  refine ⟨?_, by decide, by norm_num⟩
  rw [calculateStats, if_neg (by simp), Option.map_some']
  show some ((List.insertionSort (· ≤ ·) [(1 : ℚ), 2]).getD
      ([(1 : ℚ), 2].length / 2) 0) = some 2
  decide

/-- Witness for C3: on the odd-length set `[3, 1, 2]` the reported
median is the true sorted middle element `2`, and it is a sample. -/
theorem C3_witness :
    (calculateStats [3, 1, 2]).map Stats.median = some 2 := by
  obtain ⟨st, hst, hmed, _⟩ := (C3_median [3, 1, 2] []).1 (by simp)
  rw [hst, Option.map_some', hmed]
  decide

theorem insertionSort_replicate {α : Type} [LinearOrder α] (n : ℕ) (x : α) :
    List.insertionSort (· ≤ ·) (List.replicate n x) = List.replicate n x := by
  refine List.eq_replicate_iff.mpr ⟨?_, ?_⟩
  · rw [List.length_insertionSort, List.length_replicate]
  · intro b hb
    exact List.eq_of_mem_replicate ((List.mem_insertionSort _).mp hb)

theorem getD_replicate_of_lt {α : Type} (n i : ℕ) (x d : α) (h : i < n) :
    (List.replicate n x).getD i d = x := by
  rw [List.getD_eq_getElem _ _ (by simpa using h), List.getElem_replicate]

theorem calculateStats_replicate_half (N : ℕ) (hN : 1 ≤ N) :
    calculateStats (List.replicate N (1/2 : ℚ))
      = some { mean := 1/2, median := 1/2, min := 1/2, max := 1/2,
               stdDev := 0 } := by
  have hN0 : (N : ℚ) ≠ 0 := Nat.cast_ne_zero.mpr (by omega)
  have hne : List.replicate N (1/2 : ℚ) ≠ [] := by
    simp only [ne_eq, List.replicate_eq_nil_iff]
    omega
  rw [calculateStats, if_neg hne, insertionSort_replicate]
  have hmean : (List.replicate N (1/2 : ℚ)).sum
      / ((List.replicate N (1/2 : ℚ)).length : ℚ) = 1/2 := by
    rw [List.sum_replicate, List.length_replicate, nsmul_eq_mul, mul_comm,
        mul_div_assoc, div_self hN0, mul_one]
  simp only [hmean, Option.some.injEq, Stats.mk.injEq]
  refine ⟨?_, ?_, ?_, ?_, ?_⟩
  · norm_num [jsRound2, jsRound]
  · exact getD_replicate_of_lt _ _ _ _
      (by rw [List.length_replicate]; exact Nat.div_lt_self (by omega) one_lt_two)
  · exact getD_replicate_of_lt _ _ _ _ (by omega)
  · exact getD_replicate_of_lt _ _ _ _
      (by rw [List.length_replicate]; omega)
  · have hvar : ((List.replicate N (1/2 : ℚ)).map fun v => (v - 1/2) ^ 2).sum
        / ((List.replicate N (1/2 : ℚ)).length : ℚ) = 0 := by
      rw [List.map_replicate]
      norm_num
    rw [hvar]
    norm_num [jsRound2R, jsRoundR, Real.sqrt_zero]

/-- C5 (amended) — The session summary carries *no* entry for
loudness at all: `getMetricsSummary` builds stats entries only for wpm,
pitch, pause ratio, fillers, blink, gaze and tone.  The stats the claim
expects are nevertheless what the summary's own `calculateStats` helper
would produce on the constant-`0.5` loudness samples of such a session:
`{mean: 0.5, median: 0.5, min: 0.5, max: 0.5, stdDev: 0}`. -/
theorem C5_loudness_summary (N : ℕ) (hN : 1 ≤ N) (s : ControllerState)
    (now : ℚ) (es : List MetricsEvent) :
    calculateStats (List.replicate N (1/2 : ℚ))
        = some { mean := 1/2, median := 1/2, min := 1/2, max := 1/2,
                 stdDev := 0 } ∧
    ((∀ e ∈ es, e.rms = some (1/2 : ℚ)) →
      es.filterMap MetricsEvent.rms = List.replicate es.length (1/2 : ℚ)) ∧
    "loudness" ∉ (getMetricsSummary s now).statsKeys ∧
    "rms" ∉ (getMetricsSummary s now).statsKeys := by
  refine ⟨calculateStats_replicate_half N hN, ?_, ?_, ?_⟩
  case refine_2 =>
    simp [getMetricsSummary, Summary.statsKeys, Summary.statsEntries]
  case refine_3 =>
    simp [getMetricsSummary, Summary.statsKeys, Summary.statsEntries]
  intro hall
  induction es with
  | nil => rfl
  | cons e rest ih =>
    rw [List.filterMap_cons, hall e (by simp), List.length_cons,
        List.replicate_succ]
    rw [ih fun e' he' => hall e' (by simp [he'])]

/-- Counterexample to C5 as stated: a three-tick session in which every
published event carries loudness `1/2` — yet the summary object contains
no loudness entry whatsoever (its stats keys are fixed by its shape). -/
theorem C5_counterexample :
    ((runTicks 1800 ⟨none, some (1/2)⟩ noFace (start true initialState 0).2
        [100, 200, 300]).2.map MetricsEvent.rms)
      = [some (1/2 : ℚ), some (1/2), some (1/2)] ∧
    "loudness" ∉ (getMetricsSummary
        (stop (runTicks 1800 ⟨none, some (1/2)⟩ noFace
            (start true initialState 0).2 [100, 200, 300]).1 400)
        400).statsKeys := by
  exact ⟨rfl, by decide⟩

/-- Witness for C5: the constant-`0.5` stats identity at `N = 3`, and the
absence of a loudness entry in a concrete summary. -/
theorem C5_witness :
    calculateStats (List.replicate 3 (1/2 : ℚ))
        = some { mean := 1/2, median := 1/2, min := 1/2, max := 1/2,
                 stdDev := 0 } ∧
    "loudness" ∉ (getMetricsSummary initialState 9).statsKeys :=
  ⟨(C5_loudness_summary 3 (by norm_num) initialState 9 []).1,
   (C5_loudness_summary 3 (by norm_num) initialState 9 []).2.2.1⟩

/-- The variance sub-score of the spec (§4.5 steps 2-3): the coefficient
of variation (population stddev over mean) of the voiced pitch samples,
mapped through `(CV − 0.07) / 0.05`. -/
noncomputable def varianceSubscore (voiced : List ℚ) : ℝ :=
  (Real.sqrt (((voiced.map fun p =>
        (p - voiced.sum / (voiced.length : ℚ)) ^ 2).sum
      / (voiced.length : ℚ) : ℚ) : ℝ)
    / ((voiced.sum / (voiced.length : ℚ) : ℚ) : ℝ) - 0.07) / 0.05

/-- The rate sub-score of the spec (§4.5 step 4):
`(meanWpm − 135) / 35`, `0` with no pace samples. -/
def rateSubscore (wh : List ℚ) : ℚ :=
  if wh = [] then 0 else (wh.sum / (wh.length : ℚ) - 135) / 35

/-- The sentiment sub-score of the spec (§4.5 step 5): the mean of the
rolling sentiment window, `0` with no samples. -/
def sentimentSubscore (sh : List ℚ) : ℚ :=
  if sh = [] then 0 else sh.sum / (sh.length : ℚ)

/-- C1 — `calculateToneScore` is `undefined` exactly when there are
fewer than 10 rolling pitch samples, fewer than 10 rolling loudness
samples, or fewer than 5 voiced pitch samples; otherwise it equals
`clamp(-1, 1, 1.5 × (0.25 × varianceSubscore + 0.25 × rateSubscore +
0.5 × sentimentSubscore))` over the voiced pitch samples, the pace
window and the sentiment window; and any defined value lies in
`[-1, 1]`. -/
theorem C1_tone_score (ph rh wh sh : List ℚ) :
    ((ph.length < 10 ∨ rh.length < 10
        ∨ (ph.filter fun p => decide (0 < p)).length < 5) →
      calculateToneScore ph rh wh sh = none) ∧
    (10 ≤ ph.length → 10 ≤ rh.length →
      5 ≤ (ph.filter fun p => decide (0 < p)).length →
      calculateToneScore ph rh wh sh
        = some (max (-1) (min 1 (1.5
            * (0.25 * varianceSubscore (ph.filter fun p => decide (0 < p))
              + 0.25 * (rateSubscore wh : ℝ)
              + 0.5 * (sentimentSubscore sh : ℝ)))))) ∧
    (∀ x, calculateToneScore ph rh wh sh = some x → -1 ≤ x ∧ x ≤ 1) := by
  refine ⟨?_, ?_, ?_⟩
  · intro hcond
    by_cases h1 : ph.length < 10 ∨ rh.length < 10
    · rw [calculateToneScore, if_pos h1]
    · have h2 : (ph.filter fun p => decide (0 < p)).length < 5 := by
        rcases hcond with h | h | h
        · exact absurd (Or.inl h) h1
        · exact absurd (Or.inr h) h1
        · exact h
      rw [calculateToneScore, if_neg h1]
      show (if (ph.filter fun p => decide (0 < p)).length < 5 then none
          else _) = (none : Option ℝ)
      rw [if_pos h2]
  · intro h10p h10r h5
    have h1 : ¬(ph.length < 10 ∨ rh.length < 10) := by omega
    have hvoicedpos : ∀ p ∈ ph.filter fun p => decide (0 < p), 0 < p :=
      fun p hp => of_decide_eq_true (List.mem_filter.mp hp).2
    have hvne : (ph.filter fun p => decide (0 < p)) ≠ [] := by
      intro hnil
      rw [hnil] at h5
      simp at h5
    have hmeanpos : 0 < (ph.filter fun p => decide (0 < p)).sum
        / (((ph.filter fun p => decide (0 < p)).length : ℚ)) :=
      div_pos (List.sum_pos _ hvoicedpos hvne)
        (by exact_mod_cast List.length_pos.mpr hvne)
    simp only [calculateToneScore]
    rw [if_neg h1, if_neg (not_lt.mpr h5), if_pos hmeanpos]
    by_cases hw : wh = []
    · by_cases hs : sh = []
      · rw [if_neg (by simp [hw]), if_neg (by simp [hs]),
            rateSubscore, if_pos hw, sentimentSubscore, if_pos hs]
        congr 1
        congr 1
        congr 1
        simp only [varianceSubscore]
        push_cast
        ring
      · rw [if_neg (by simp [hw]),
            if_pos (fun h => hs (List.length_eq_zero.mp h)),
            rateSubscore, if_pos hw, sentimentSubscore, if_neg hs]
        congr 1
        congr 1
        congr 1
        simp only [varianceSubscore]
        push_cast
        ring
    · by_cases hs : sh = []
      · rw [if_pos (fun h => hw (List.length_eq_zero.mp h)),
            if_neg (by simp [hs]),
            rateSubscore, if_neg hw, sentimentSubscore, if_pos hs]
        congr 1
        congr 1
        congr 1
        simp only [varianceSubscore]
        push_cast
        ring
      · rw [if_pos (fun h => hw (List.length_eq_zero.mp h)),
            if_pos (fun h => hs (List.length_eq_zero.mp h)),
            rateSubscore, if_neg hw, sentimentSubscore, if_neg hs]
        congr 1
        congr 1
        congr 1
        simp only [varianceSubscore]
        push_cast
        ring
  · intro x hx
    by_cases h1 : ph.length < 10 ∨ rh.length < 10
    · rw [calculateToneScore, if_pos h1] at hx
      exact Option.noConfusion hx
    · by_cases h2 : (ph.filter fun p => decide (0 < p)).length < 5
      · simp only [calculateToneScore] at hx
        rw [if_neg h1, if_pos h2] at hx
        exact Option.noConfusion hx
      · simp only [calculateToneScore] at hx
        rw [if_neg h1, if_neg h2] at hx
        injection hx with hx'
        rw [← hx']
        exact ⟨le_max_left _ _, max_le (by norm_num) (min_le_left _ _)⟩

/-- Witness for C1: ten constant voiced pitch samples and ten loudness
samples make the score defined (variance sub-score `(0 − 0.07)/0.05`,
empty pace and sentiment windows). -/
theorem C1_witness :
    calculateToneScore (List.replicate 10 (100 : ℚ))
        (List.replicate 10 (1/2 : ℚ)) [] []
      = some (max (-1) (min 1 (1.5
          * (0.25 * varianceSubscore
                ((List.replicate 10 (100 : ℚ)).filter fun p => decide (0 < p))
            + 0.25 * (rateSubscore [] : ℝ)
            + 0.5 * (sentimentSubscore [] : ℝ))))) :=
  (C1_tone_score (List.replicate 10 (100 : ℚ)) (List.replicate 10 (1/2 : ℚ))
      [] []).2.1 (by decide) (by decide) (by decide)
